import Mathlib

/-!
Shallow embedding of the eigent voice service (`src/voice/app`) and proofs
about its message dispatch, remote-function-call handling, session lifecycle,
SSE notification policy, and event-stream backoff.

Modelling conventions:
* Python JSON values (`json.loads` results) are the inductive `Voice.Json`;
  JSON objects are association lists where a later binding for the same key
  shadows an earlier one, matching `dict` construction order.
* `json.loads` itself is an external library call; dispatch functions take it
  as a parameter `jsonLoads : String → Option Json`, where `none` models a
  `json.JSONDecodeError`.
* Effectful statements (callback invocations, websocket sends, handler calls)
  are recorded in an explicit effect list; a second `Bool` component is `true`
  when the Python code raises an exception that is not caught inside the
  modelled function (it is caught one level up, in the message loop).
* `async` functions are modelled as pure functions of their inputs; awaited
  sub-calls whose results the code branches on are passed in as `Except`
  parameters (`.error` models the awaited call raising).
* Machine floats appear only in the reconnect backoff (1.0, doubling, capped
  at 30.0): every reachable value is a small integer exactly representable in
  binary floating point, so the backoff is modelled over `Nat`.
-/

namespace Voice

/-- JSON values as produced by Python `json.loads`: `None`, booleans, numbers
(the code only ever branches on integral values, so numbers are `Int`),
strings, arrays, and objects as association lists. -/
inductive Json where
  | null
  | bool (b : Bool)
  | num (n : Int)
  | str (s : String)
  | arr (elems : List Json)
  | obj (fields : List (String × Json))

/-- Python `dict.get(key)` on a JSON object's fields: the last binding for a
key wins, matching `dict` semantics when an association list models insertion
order. -/
def jsonGet (fields : List (String × Json)) (key : String) : Option Json :=
  match fields with
  | [] => none
  | (k, v) :: rest =>
    match jsonGet rest key with
    | some r => some r
    | none => if k = key then some v else none

/-- Python `dict.get(key, default)`. -/
def jsonGetD (fields : List (String × Json)) (key : String) (dflt : Json) : Json :=
  (jsonGet fields key).getD dflt

/-- Python truthiness of a JSON value (`if value:`): `None`, `False`, `0`,
`""`, `[]` and `{}` are falsy, everything else truthy. -/
def jsonTruthy : Json → Bool
  | .null => false
  | .bool b => b
  | .num n => n != 0
  | .str s => s != ""
  | .arr [] => false
  | .arr (_ :: _) => true
  | .obj [] => false
  | .obj (_ :: _) => true

/-- Whether Python `len(value)` is defined for this JSON value (strings,
lists and dicts are sized; `None`, booleans and numbers raise `TypeError`). -/
def pyHasLen : Json → Bool
  | .str _ | .arr _ | .obj _ => true
  | _ => false

/-- Python `len(value)` for sized JSON values. -/
def pyLen : Json → Option Nat
  | .str s => some s.length
  | .arr xs => some xs.length
  | .obj kvs => some kvs.length
  | _ => none

/-- Whether Python slicing `value[:n]` is defined for this JSON value
(strings and lists slice; dicts and scalars raise `TypeError`). -/
def pySliceable : Json → Bool
  | .str _ | .arr _ => true
  | _ => false

mutual
/-- Python `repr` of a JSON value, used by `str()` on containers. String
escaping inside quotes is not modelled (the modelled strings contain no
quotes or backslashes). -/
def pyRepr : Json → String
  | .null => "None"
  | .bool true => "True"
  | .bool false => "False"
  | .num n => toString n
  | .str s => "\x27" ++ s ++ "\x27"
  | .arr xs => "[" ++ pyReprList xs ++ "]"
  | .obj kvs => "\x7b" ++ pyReprFields kvs ++ "\x7d"

/-- Comma-separated `repr`s of list elements. -/
def pyReprList : List Json → String
  | [] => ""
  | [x] => pyRepr x
  | x :: y :: rest => pyRepr x ++ ", " ++ pyReprList (y :: rest)

/-- Comma-separated `repr`s of dict entries. -/
def pyReprFields : List (String × Json) → String
  | [] => ""
  | [(k, v)] => "\x27" ++ k ++ "\x27: " ++ pyRepr v
  | (k, v) :: f :: rest => "\x27" ++ k ++ "\x27: " ++ pyRepr v ++ ", " ++ pyReprFields (f :: rest)
end

/-- Python `str()` of a JSON value, as used by f-string interpolation:
strings are themselves, everything else formats as its `repr`. -/
def pyStr : Json → String
  | .str s => s
  | j => pyRepr j

/-! ### Agent Connection (`deepgram_agent.py`, class `VoiceAgent`)

The `VoiceAgent` methods are embedded as pure functions from the relevant
connection state to a list of observable `Effect`s plus an uncaught-exception
flag. `self.connection is not None` is the `connected : Bool` parameter;
`self.functions` is the `FuncTable`; the five optional callbacks are `Bool`
presence flags (invoking one is recorded as an effect). -/

/-- A registered remote-function handler (`self.functions[name]`): takes the
parsed JSON arguments object and either returns a JSON-compatible result dict
(`.ok`) or raises (`.error`), covering both keyword-binding `TypeError`s and
exceptions from the handler body. -/
def Handler : Type := Json → Except Unit Json

/-- The function dispatch table `self.functions`. -/
def FuncTable : Type := List (String × Handler)

/-- Python `name in self.functions` / `self.functions[name]` lookup. -/
def lookupFn : FuncTable → String → Option Handler
  | [], _ => none
  | (k, v) :: rest, n => if k = n then some v else lookupFn rest n

/-- An outbound wire message to the Deepgram connection. -/
inductive Frame where
  | functionCallResponse (id : Json) (name : Json) (content : Json)
  | media (data : List Nat)

/-- Observable actions of the agent-connection code: callback invocations,
registered-handler invocations, and frames sent on the connection.
`functionCallResponse`'s `content` field models the `json.dumps(result)`
string by the (serializable) result value itself. -/
inductive Effect where
  | audioOut (data : List Nat)
  | transcript (content : Json)
  | agentResponse (content : Json)
  | userStartedSpeaking
  | agentStartedSpeaking
  | handlerCalled (name : String) (args : Json)
  | sent (frame : Frame)

/-- `VoiceAgent._send_function_response`: builds the `FunctionCallResponse`
frame and sends it, unless `self.connection` is `None`, in which case it logs
and returns without sending (and without raising). -/
def send_function_response (connected : Bool) (call_id name result : Json) : List Effect :=
  if connected then [Effect.sent (Frame.functionCallResponse call_id name result)] else []

/-- `VoiceAgent.send_audio`: forwards audio via `send_media` only when
`self.connection` is set; otherwise it returns without sending or raising. -/
def send_audio (connected : Bool) (audio_bytes : List Nat) : List Effect :=
  if connected then [Effect.sent (Frame.media audio_bytes)] else []

/-- The body of `_handle_function_call` after a successful argument parse:
`if func_name in self.functions:` invoke with `**func_args` inside
`try/except` (any exception becomes a "Function execution failed" response),
`else:` send the "Unknown function" response. Unpacking `**func_args` of a
non-dict raises `TypeError` before the handler runs, caught by the same
`except`. A registered-table membership test on an unhashable name (list or
dict) raises an uncaught `TypeError`. -/
def dispatchCall (funcs : FuncTable) (connected : Bool) (func_name call_id : Json)
    (args : Json) : List Effect × Bool :=
  match func_name with
  | .str n =>
    match lookupFn funcs n with
    | some h =>
      match args with
      | .obj fields =>
        match h (.obj fields) with
        | .ok result =>
          (Effect.handlerCalled n (.obj fields) ::
            send_function_response connected call_id func_name result, false)
        | .error _ =>
          (Effect.handlerCalled n (.obj fields) ::
            send_function_response connected call_id func_name
              (.obj [("error", .str "Function execution failed")]), false)
      | _ =>
        (send_function_response connected call_id func_name
          (.obj [("error", .str "Function execution failed")]), false)
    | none =>
      (send_function_response connected call_id func_name
        (.obj [("error", .str ("Unknown function: " ++ n))]), false)
  | .arr _ | .obj _ => ([], true)
  | _ =>
    (send_function_response connected call_id func_name
      (.obj [("error", .str ("Unknown function: " ++ pyStr func_name))]), false)

/-- One iteration of the `for func in functions:` loop of
`VoiceAgent._handle_function_call`: skip non-client-side entries, extract
`name`/`id`/`arguments` with their `dict.get` defaults, evaluate
`json.loads(arguments_str) if arguments_str else {}` (a `JSONDecodeError`
sends the "Invalid function arguments" response and continues; `json.loads`
of a truthy non-string raises an uncaught `TypeError`), then dispatch.
A non-dict loop element raises an uncaught `AttributeError` on `.get`. -/
def processFuncItem (funcs : FuncTable) (connected : Bool)
    (jsonLoads : String → Option Json) (item : Json) : List Effect × Bool :=
  match item with
  | .obj fields =>
    let client_side := jsonTruthy (jsonGetD fields "client_side" (.bool false))
    if !client_side then ([], false)
    else
      let func_name := jsonGetD fields "name" (.str "")
      let call_id := jsonGetD fields "id" (.str "")
      let argumentsVal := jsonGetD fields "arguments" (.str "\x7b\x7d")
      if !jsonTruthy argumentsVal then
        dispatchCall funcs connected func_name call_id (.obj [])
      else
        match argumentsVal with
        | .str s =>
          match jsonLoads s with
          | none =>
            (send_function_response connected call_id func_name
              (.obj [("error", .str "Invalid function arguments")]), false)
          | some args => dispatchCall funcs connected func_name call_id args
        | _ => ([], true)
  | _ => ([], true)

/-- The `for func in functions:` loop: items are processed in order; an
uncaught exception from one item aborts the remaining items (it propagates
out of `_handle_function_call`). -/
def processFuncItems (funcs : FuncTable) (connected : Bool)
    (jsonLoads : String → Option Json) : List Json → List Effect × Bool
  | [] => ([], false)
  | item :: rest =>
    let r := processFuncItem funcs connected jsonLoads item
    if r.2 then (r.1, true)
    else
      let rs := processFuncItems funcs connected jsonLoads rest
      (r.1 ++ rs.1, rs.2)

/-- `VoiceAgent._handle_function_call`: `msg.get("functions", [])` then the
per-item loop. Iterating a non-list raises (`TypeError` for non-iterables;
for a non-empty string or dict, the first yielded element is a string whose
`.get` raises `AttributeError`); empty strings and dicts iterate zero
times. -/
def handle_function_call (funcs : FuncTable) (connected : Bool)
    (jsonLoads : String → Option Json) (fields : List (String × Json)) :
    List Effect × Bool :=
  match jsonGetD fields "functions" (.arr []) with
  | .arr items => processFuncItems funcs connected jsonLoads items
  | .str s => if s.isEmpty then ([], false) else ([], true)
  | .obj kvs => if kvs.isEmpty then ([], false) else ([], true)
  | _ => ([], true)

/-- Connection-level state of a `VoiceAgent` as seen by the receive path:
which optional callbacks are set, the function table, and whether
`self.connection` is set. -/
structure VoiceAgentState where
  on_transcript : Bool
  on_agent_response : Bool
  on_audio : Bool
  on_user_started_speaking : Bool
  on_agent_started_speaking : Bool
  functions : FuncTable
  connected : Bool

/-- The `type`-string dispatch chain of `VoiceAgent._handle_raw_message`
(every branch below mirrors one `elif`; the final `else` logs the unknown
type and returns). Eagerly-evaluated logging arguments that slice or take
`len` of the extracted `content` raise for unsized/unsliceable values; `%`
formatting inside `logger.*` calls is deferred and swallowed by `logging`,
so it never raises. -/
def handleTyped (st : VoiceAgentState) (jsonLoads : String → Option Json)
    (fields : List (String × Json)) (t : String) : List Effect × Bool :=
  if t = "Welcome" then ([], false)
  else if t = "SettingsApplied" then ([], false)
  else if t = "ConversationText" then
    let content := jsonGetD fields "content" (.str "")
    match pyLen content with
    | none => ([], true)
    | some l =>
      if l > 100 && !pySliceable content then ([], true)
      else
        match jsonGet fields "role" with
        | some (.str r) =>
          if r = "user" && st.on_transcript then ([Effect.transcript content], false)
          else if r = "assistant" && st.on_agent_response then
            ([Effect.agentResponse content], false)
          else ([], false)
        | _ => ([], false)
  else if t = "History" then
    let content := jsonGetD fields "content" (.str "")
    if jsonTruthy content && !pySliceable content then ([], true) else ([], false)
  else if t = "UserStartedSpeaking" then
    ((if st.on_user_started_speaking then [Effect.userStartedSpeaking] else []), false)
  else if t = "AgentThinking" then
    let content := jsonGetD fields "content" (.str "")
    if jsonTruthy content && !pySliceable content then ([], true) else ([], false)
  else if t = "AgentStartedSpeaking" then
    ((if st.on_agent_started_speaking then [Effect.agentStartedSpeaking] else []), false)
  else if t = "AgentAudioDone" then ([], false)
  else if t = "FunctionCallRequest" then
    handle_function_call st.functions st.connected jsonLoads fields
  else if t = "FunctionCallResponse" then ([], false)
  else if t = "PromptUpdated" then ([], false)
  else if t = "SpeakUpdated" then ([], false)
  else if t = "InjectionRefused" then ([], false)
  else if t = "Error" then ([], false)
  else if t = "Warning" then ([], false)
  else ([], false)

/-- An inbound websocket frame: binary audio, or a text payload that
`_handle_raw_message` gives to `json.loads`. -/
inductive RawMessage where
  | binary (data : List Nat)
  | text (payload : String)

/-- `VoiceAgent._handle_raw_message`: binary frames go to the audio callback;
text frames are parsed (`JSONDecodeError` logs and returns), non-dict JSON
raises an uncaught `AttributeError` on `msg.get`, and dicts dispatch on
`msg.get("type", "unknown")` — a non-string `type` matches no branch and
falls into the unknown-type `else`. -/
def handle_raw_message (st : VoiceAgentState) (jsonLoads : String → Option Json)
    (m : RawMessage) : List Effect × Bool :=
  match m with
  | .binary data => ((if st.on_audio then [Effect.audioOut data] else []), false)
  | .text payload =>
    match jsonLoads payload with
    | none => ([], false)
    | some (.obj fields) =>
      match jsonGetD fields "type" (.str "unknown") with
      | .str t => handleTyped st jsonLoads fields t
      | _ => ([], false)
    | some _ => ([], true)

/-- `VoiceAgent._message_loop`: each delivered frame is handled inside
`try/except Exception`, so neither a handled message's effects nor an
uncaught per-message exception stop the iteration — the loop's observable
behaviour is the concatenation of each message's effects. -/
def message_loop (st : VoiceAgentState) (jsonLoads : String → Option Json) :
    List RawMessage → List Effect
  | [] => []
  | m :: rest =>
    (handle_raw_message st jsonLoads m).1 ++ message_loop st jsonLoads rest

/-- The `type` discriminators with a dedicated branch in
`_handle_raw_message`. -/
def recognizedTypes : List String :=
  ["Welcome", "SettingsApplied", "ConversationText", "History",
   "UserStartedSpeaking", "AgentThinking", "AgentStartedSpeaking",
   "AgentAudioDone", "FunctionCallRequest", "FunctionCallResponse",
   "PromptUpdated", "SpeakUpdated", "InjectionRefused", "Error", "Warning"]

/-! ### Session Orchestrator (`session.py`, class `VoiceSession`)

The lifecycle fields `_agent`, `_eigent`, `_sse_task` and `_active` form the
`SessionState`; the owned resources themselves are abstracted to `Unit`
(present or absent is all the lifecycle code inspects). Resource-release
actions performed during `_cleanup` are recorded as `CleanupEffect`s. -/

/-- The lifecycle-relevant fields of a `VoiceSession` dataclass instance. -/
structure SessionState where
  project_id : String
  auth_token : Option String
  agent : Option Unit
  eigent : Option Unit
  sse_task : Option Unit
  active : Bool
deriving Repr, DecidableEq

/-- Resource-release actions attempted by `VoiceSession._cleanup`, in
program order. -/
inductive CleanupEffect where
  | sseTaskCancelled
  | agentDisconnected
  | eigentClosed
deriving Repr, DecidableEq

/-- `VoiceSession._cleanup`: cancels the SSE task, disconnects the agent and
closes the Eigent client — each step wrapped in `try/except` (timeouts and
errors are logged, never re-raised) — and unconditionally clears all three
fields. It does not touch `_active`. -/
def cleanup (s : SessionState) : SessionState × List CleanupEffect :=
  ({ s with sse_task := none, agent := none, eigent := none },
    (if s.sse_task.isSome then [CleanupEffect.sseTaskCancelled] else []) ++
    (if s.agent.isSome then [CleanupEffect.agentDisconnected] else []) ++
    (if s.eigent.isSome then [CleanupEffect.eigentClosed] else []))

/-- `VoiceSession.stop`: sets `_active` to `False` first, then runs
`_cleanup`. Every fallible step inside `_cleanup` is caught, so `stop`
raises nothing (it is a total function). -/
def stop (s : SessionState) : SessionState × List CleanupEffect :=
  cleanup { s with active := false }

/-- Where, if anywhere, the `try` chain of `VoiceSession.start` raises. The
constructors follow program order: `EigentClient(...)` construction,
`EigentClient.__aenter__`, `VoiceAgent(...)` construction, the
`register_function` calls, and `VoiceAgent.connect()`. -/
inductive StartOutcome where
  | ok
  | failEigentConstruct
  | failEigentEnter
  | failAgentConstruct
  | failRegister
  | failConnect
deriving Repr, DecidableEq

/-- `VoiceSession.start` with a given failure point: resources acquired
before the failing step are present when the `except` block calls
`_cleanup`, and the exception is then re-raised (the `Bool` component).
`_active` is assigned `True` only after `connect()` succeeds, and the SSE
subscription task is never created (that line is commented out in the
source), so on success `_sse_task` keeps its previous value. -/
def start (o : StartOutcome) (s : SessionState) :
    SessionState × List CleanupEffect × Bool :=
  match o with
  | .ok =>
    ({ s with eigent := some (), agent := some (), active := true }, [], false)
  | .failEigentConstruct =>
    let r := cleanup s
    (r.1, r.2, true)
  | .failEigentEnter | .failAgentConstruct =>
    let r := cleanup { s with eigent := some () }
    (r.1, r.2, true)
  | .failRegister | .failConnect =>
    let r := cleanup { s with eigent := some (), agent := some () }
    (r.1, r.2, true)

/-- A freshly constructed `VoiceSession` for project `"proj"`: dataclass
field defaults give `_agent = _eigent = _sse_task = None` and
`_active = False`. -/
def initState : SessionState :=
  { project_id := "proj", auth_token := none,
    agent := none, eigent := none, sse_task := none, active := false }

/-- The `TaskStatus` pydantic model (`models.py`). -/
structure TaskStatus where
  total : Int
  completed : Int
  running : Int
  failed : Int
  current_task : Option String := none
deriving Repr, DecidableEq

/-- The `SSEEvent` pydantic model (`models.py`): an event name and a JSON
object payload. -/
structure SSEEvent where
  event : String
  data : List (String × Json)

/-- `VoiceSession._handle_sse_event`: returns the messages passed to
`_notify_user` (at most one per event). The awaited
`self._eigent.get_task_status(...)` in the completed branch is passed in as
`statusResult`; `.error` models that call raising anything (HTTP error,
request error, or `AttributeError` when `_eigent` is `None`), all caught by
the surrounding `except Exception`. -/
def handle_sse_event (statusResult : Except Unit TaskStatus) (ev : SSEEvent) :
    List String :=
  if ev.event = "task_state" then
    match jsonGet ev.data "state" with
    | some (.str st) =>
      if st = "completed" then
        match statusResult with
        | .ok status =>
          if status.completed = status.total then
            ["All done. " ++ toString status.total ++ " tasks completed."]
          else
            [toString status.completed ++ " of " ++ toString status.total ++ " done."]
        | .error _ => ["A task completed."]
      else if st = "failed" then
        ["A task failed. Should I retry or skip it?"]
      else []
    | _ => []
  else if ev.event = "decompose_progress" then
    let count := jsonGetD ev.data "task_count" (.num 0)
    ["I\x27ve broken this into " ++ pyStr count ++ " tasks. Ready to start?"]
  else if ev.event = "timeout" then
    ["This is taking a while. Keep waiting or cancel?"]
  else []

/-- The Backend Client operations of `EigentClient` (`eigent_client.py`),
used as an effect log recording which operations a function handler
invokes. -/
inductive BackendCall where
  | submitTask (project_id : String) (prompt : String)
  | confirmStart (project_id : String)
  | cancelTask (project_id : String)
  | getProjectContext (project_id : String)
  | getTaskStatus (project_id : String)
deriving Repr, DecidableEq

/-- `VoiceSession._fn_get_project_context`: logs and returns a fixed
informational dict; it performs no Backend Client call and has no raising
statement. -/
def fn_get_project_context (_s : SessionState) : List BackendCall × Except Unit Json :=
  ([], .ok (.obj
    [("message", .str "Project context is not available via voice. Please check the Eigent window for project details."),
     ("suggestion", .str "You can describe what you want to do and I\x27ll help formulate the task.")]))

/-- `VoiceSession._fn_get_task_status`: logs and returns a fixed
informational dict; no Backend Client call, no raising statement. -/
def fn_get_task_status (_s : SessionState) : List BackendCall × Except Unit Json :=
  ([], .ok (.obj
    [("message", .str "Task status is not available via voice. Please check the Eigent window for progress."),
     ("suggestion", .str "The main Eigent window shows detailed task progress and agent activity.")]))

/-- `VoiceSession._fn_confirm_start`: logs and returns a fixed informational
dict; no Backend Client call, no raising statement. -/
def fn_confirm_start (_s : SessionState) : List BackendCall × Except Unit Json :=
  ([], .ok (.obj
    [("message", .str "Task confirmation happens in the Eigent window."),
     ("suggestion", .str "Check the Eigent window to confirm and start the task.")]))

/-- `VoiceSession._fn_cancel_task`: logs and returns a fixed informational
dict; no Backend Client call, no raising statement. -/
def fn_cancel_task (_s : SessionState) : List BackendCall × Except Unit Json :=
  ([], .ok (.obj
    [("message", .str "To cancel a task, use the stop button in the Eigent window."),
     ("suggestion", .str "Click the stop button in the main Eigent interface.")]))

/-! ### Event-stream reconnect backoff (`VoiceSession._subscribe_events`)

Each iteration of the `while self._active:` loop either ends with the event
stream exhausted cleanly (`backoff = 1.0`, reconnect immediately) or with an
exception (`await asyncio.sleep(backoff)` then
`backoff = min(backoff * 2, max_backoff)`). All reachable backoff values are
small integers exactly representable as floats, so the model uses `Nat`
seconds. The model covers the session's active phase (`self._active` true
throughout); stop-path exits do not sleep and emit no delay. -/

/-- How one `async for` subscription attempt ends: the stream is exhausted
cleanly, or it raises. The `yieldedEvents` flag records whether the
subscription was successfully (re-)established and delivered events before
raising; the source's `except` branch cannot observe it. -/
inductive StreamOutcome where
  | clean
  | error (yieldedEvents : Bool)
deriving Repr, DecidableEq

/-- `backoff = 1.0`, the initial backoff in seconds. -/
def initialBackoff : Nat := 1

/-- `max_backoff = 30.0`, the backoff cap in seconds. -/
def maxBackoff : Nat := 30

/-- One iteration of the subscription loop: given the current `backoff`,
return the next `backoff` and the retry delay slept this iteration (`none`
when the stream ended cleanly — the loop reconnects immediately). -/
def subscribeStep (backoff : Nat) : StreamOutcome → Nat × Option Nat
  | .clean => (initialBackoff, none)
  | .error _ => (min (backoff * 2) maxBackoff, some backoff)

/-- The retry delays slept across a sequence of subscription attempts,
threading the backoff through `subscribeStep`. -/
def subscribeDelays (backoff : Nat) : List StreamOutcome → List Nat
  | [] => []
  | o :: rest =>
    let r := subscribeStep backoff o
    (match r.2 with | some d => [d] | none => []) ++ subscribeDelays r.1 rest

/-! ### Theorems -/

/-- C1: every failure point in `VoiceSession.start` on a fresh session runs
`_cleanup` before re-raising: the resulting state is again the fully-released
fresh state (all three resource fields `None`, `_active` false), the
resources acquired before the failure are exactly the ones released (the
backend client is closed whenever it was acquired, the agent disconnected
whenever it was constructed), and the error is re-raised; moreover a failed
`start` never sets `_active`, and only a fully successful `start` yields an
active session. -/
theorem start_failure_rolls_back :
    start .failEigentConstruct initState = (initState, [], true)
  ∧ start .failEigentEnter initState = (initState, [CleanupEffect.eigentClosed], true)
  ∧ start .failAgentConstruct initState = (initState, [CleanupEffect.eigentClosed], true)
  ∧ start .failRegister initState =
      (initState, [CleanupEffect.agentDisconnected, CleanupEffect.eigentClosed], true)
  ∧ start .failConnect initState =
      (initState, [CleanupEffect.agentDisconnected, CleanupEffect.eigentClosed], true)
  ∧ start .ok initState =
      ({ initState with eigent := some (), agent := some (), active := true }, [], false)
  ∧ (∀ (s : SessionState) (o : StartOutcome),
      (start o s).1.active = (if o = .ok then true else s.active)) := by
  refine ⟨by decide, by decide, by decide, by decide, by decide, by decide, ?_⟩
  intro s o
  cases o <;> simp [start, cleanup]

/-- C5: `VoiceSession.stop` is idempotent: one call already clears the SSE
task, agent and Eigent-client fields and sets `_active` false; a second call
reaches the same state, performs no further resource releases, and (being a
total function whose `_cleanup` catches every per-resource exception) raises
no error. -/
theorem stop_twice_same_state (s : SessionState) :
    (stop (stop s).1).1 = (stop s).1
  ∧ (stop s).1.sse_task = none
  ∧ (stop s).1.agent = none
  ∧ (stop s).1.eigent = none
  ∧ (stop s).1.active = false
  ∧ (stop (stop s).1).2 = [] := by
  simp [stop, cleanup]

/-- C9: with the agent connection Disconnected (`self.connection is None`),
`VoiceAgent.send_audio` and `VoiceAgent._send_function_response` send no
frame at all; both are total functions, so neither raises. -/
theorem disconnected_sends_are_noops (audio : List Nat) (call_id nm result : Json) :
    send_audio false audio = [] ∧ send_function_response false call_id nm result = [] := by
  simp [send_audio, send_function_response]

/-- Capping commutes with multiplication on the already-capped side:
re-capping `min x 30 * y` gives the same as capping `x * y`. -/
theorem min_cap_mul (x y : Nat) (hy : 1 ≤ y) :
    min (min x maxBackoff * y) maxBackoff = min (x * y) maxBackoff := by
  rcases le_total x maxBackoff with h | h
  · rw [min_eq_left h]
  · rw [min_eq_right h]
    have h1 : maxBackoff ≤ maxBackoff * y := by nlinarith
    have h2 : maxBackoff ≤ x * y := by nlinarith
    rw [min_eq_right h1, min_eq_right h2]

/-- Delays over a run of consecutive error-terminated subscription attempts,
starting from backoff `b ≤ 30`: the k-th delay (0-based) is
`min (b * 2 ^ k) 30`. -/
theorem subscribeDelays_replicate (fl : Bool) :
    ∀ (n b : Nat), b ≤ maxBackoff →
      subscribeDelays b (List.replicate n (StreamOutcome.error fl)) =
        (List.range n).map (fun k => min (b * 2 ^ k) maxBackoff) := by
  intro n
  induction n with
  | zero => intro b _; simp [subscribeDelays]
  | succ n ih =>
    intro b hb
    rw [List.replicate_succ]
    simp only [subscribeDelays, subscribeStep]
    rw [ih (min (b * 2) maxBackoff) (min_le_right _ _)]
    rw [List.range_succ_eq_map, List.map_cons, List.map_map]
    simp only [List.singleton_append, List.cons_append, List.nil_append]
    congr 1
    · rw [pow_zero, mul_one, min_eq_left hb]
    · congr 1
      funext k
      have h2 : (1 : Nat) ≤ 2 ^ k := Nat.one_le_two_pow
      simp only [Function.comp_apply]
      rw [min_cap_mul _ _ h2, pow_succ]
      ring_nf

/-- C6 counterexample: the code resets the backoff only when the stream ends
cleanly, not after a successful reconnect per se. Concrete run: attempt 1
fails outright (delay 1.0 s, backoff doubles to 2.0); attempt 2 successfully
reconnects and delivers events but then the stream raises — the claim's
reset-after-successful-reconnect predicts the next delay is the initial
1.0 s, but the code sleeps the carried-over 2.0 s. -/
theorem backoff_reset_counterexample :
    subscribeDelays initialBackoff
      [StreamOutcome.error false, StreamOutcome.error true] = [1, 2]
  ∧ (2 : Nat) ≠ initialBackoff := by decide

/-- C6 (amended): after N consecutive error-terminated subscription attempts
the Nth retry delay equals `min (initial * 2 ^ (N - 1)) cap` with
initial = 1.0 s and cap = 30.0 s (stated 0-based over the whole delay list),
and the delay resets to the initial value only when the event stream ends
cleanly: a clean end sets the backoff back to `initialBackoff`, so the
delays after it restart from 1.0 s. -/
theorem backoff_delay_formula (n : Nat) (fl : Bool) (b : Nat) (tr : List StreamOutcome) :
    subscribeDelays initialBackoff (List.replicate n (StreamOutcome.error fl)) =
      (List.range n).map (fun k => min (2 ^ k) maxBackoff)
  ∧ subscribeStep b StreamOutcome.clean = (initialBackoff, none)
  ∧ subscribeDelays b (StreamOutcome.clean :: tr) = subscribeDelays initialBackoff tr := by
  refine ⟨?_, rfl, ?_⟩
  · have h := subscribeDelays_replicate fl n initialBackoff (by decide)
    simpa [initialBackoff, one_mul] using h
  · simp [subscribeDelays, subscribeStep]

/-- A session whose `start` fully succeeded: both connections held, no SSE
task, `_active` true. -/
def activeSession : SessionState :=
  { project_id := "proj", auth_token := none,
    agent := some (), eigent := some (), sse_task := none, active := true }

/-- C7 counterexample: on a fully started session whose backend client is
available, none of the four handlers `_fn_get_project_context`,
`_fn_get_task_status`, `_fn_confirm_start`, `_fn_cancel_task` performs the
corresponding Backend Client operation — each one's backend-call log is
empty, refuting the claim that each calls its Backend Client operation when
available. -/
theorem handlers_no_backend_call_counterexample :
    (fn_get_project_context activeSession).1 = []
  ∧ BackendCall.getProjectContext "proj" ∉ (fn_get_project_context activeSession).1
  ∧ (fn_get_task_status activeSession).1 = []
  ∧ BackendCall.getTaskStatus "proj" ∉ (fn_get_task_status activeSession).1
  ∧ (fn_confirm_start activeSession).1 = []
  ∧ BackendCall.confirmStart "proj" ∉ (fn_confirm_start activeSession).1
  ∧ (fn_cancel_task activeSession).1 = []
  ∧ BackendCall.cancelTask "proj" ∉ (fn_cancel_task activeSession).1 := by
  refine ⟨rfl, ?_, rfl, ?_, rfl, ?_, rfl, ?_⟩ <;>
    simp [fn_get_project_context, fn_get_task_status, fn_confirm_start, fn_cancel_task]

/-- C7 (amended): `_fn_get_project_context`, `_fn_get_task_status`,
`_fn_confirm_start` and `_fn_cancel_task` each return a fixed informational
payload without invoking any Backend Client operation, and none of them
raises into the agent connection's dispatch path (each result is `.ok`). -/
theorem handlers_static_and_nonraising (s : SessionState) :
    ((fn_get_project_context s).1 = [] ∧ ∃ p, (fn_get_project_context s).2 = .ok p)
  ∧ ((fn_get_task_status s).1 = [] ∧ ∃ p, (fn_get_task_status s).2 = .ok p)
  ∧ ((fn_confirm_start s).1 = [] ∧ ∃ p, (fn_confirm_start s).2 = .ok p)
  ∧ ((fn_cancel_task s).1 = [] ∧ ∃ p, (fn_cancel_task s).2 = .ok p) :=
  ⟨⟨rfl, _, rfl⟩, ⟨rfl, _, rfl⟩, ⟨rfl, _, rfl⟩, ⟨rfl, _, rfl⟩⟩

/-- A `task_state` SSE event with `state = "completed"`. -/
def evTaskCompleted : SSEEvent :=
  { event := "task_state", data := [("state", Json.str "completed")] }

/-- C8: handling a `task_state` event with `state="completed"`: a follow-up
status query returning completed=2, total=4 notifies exactly
"2 of 4 done."; a query with completed equal to total notifies
"All done. (total) tasks completed."; a failing query notifies the generic
"A task completed." instead of raising. -/
theorem task_completed_notifications (st : TaskStatus) :
    handle_sse_event (.ok { total := 4, completed := 2, running := 1, failed := 1 })
      evTaskCompleted = ["2 of 4 done."]
  ∧ (st.completed = st.total →
      handle_sse_event (.ok st) evTaskCompleted =
        ["All done. " ++ toString st.total ++ " tasks completed."])
  ∧ handle_sse_event (.error ()) evTaskCompleted = ["A task completed."] := by
  refine ⟨by decide, ?_, by decide⟩
  intro h
  simp [handle_sse_event, evTaskCompleted, jsonGet, h]

/-- Witness for C8's universally quantified clause: a status snapshot with
completed = total = 4 produces the full-completion notification. -/
theorem task_completed_notifications_witness :
    handle_sse_event (.ok { total := 4, completed := 4, running := 0, failed := 0 })
      evTaskCompleted = ["All done. 4 tasks completed."] := by
  have h := (task_completed_notifications
    { total := 4, completed := 4, running := 0, failed := 0 }).2.1 rfl
  simpa using h

/-- A client-executable `FunctionCallRequest` entry as Deepgram sends it:
`client_side` true, a function name, a call id, and an argument string. -/
def mkItem (nm : String) (idJ : Json) (argStr : String) : Json :=
  .obj [("client_side", .bool true), ("name", .str nm),
        ("id", idJ), ("arguments", .str argStr)]

/-- The error response `_handle_function_call` sends for an unregistered
function name, correlated by the request's call id. -/
def unknownFrame (nm : String) (idJ : Json) : Effect :=
  .sent (.functionCallResponse idJ (.str nm)
    (.obj [("error", .str ("Unknown function: " ++ nm))]))

/-- C2: for a client-executable function-call entry naming a registered
function, when the argument string fails to parse as JSON exactly one error
response is sent — correlated by that entry's call id, carrying the
"Invalid function arguments" payload — and no registered handler is invoked
for that entry. -/
theorem unparsable_args_one_error_no_handler (funcs : FuncTable)
    (jsonLoads : String → Option Json) (nm : String) (h : Handler)
    (call_id : Json) (argStr : String)
    (_hreg : lookupFn funcs nm = some h)
    (hne : argStr ≠ "") (hparse : jsonLoads argStr = none) :
    processFuncItem funcs true jsonLoads (mkItem nm call_id argStr)
      = ([Effect.sent (Frame.functionCallResponse call_id (.str nm)
            (.obj [("error", .str "Invalid function arguments")]))], false)
  ∧ ∀ args, Effect.handlerCalled nm args ∉
      (processFuncItem funcs true jsonLoads (mkItem nm call_id argStr)).1 := by
  have hb : (argStr != "") = true := by simpa [bne_iff_ne] using hne
  have key : processFuncItem funcs true jsonLoads (mkItem nm call_id argStr)
      = ([Effect.sent (Frame.functionCallResponse call_id (.str nm)
            (.obj [("error", .str "Invalid function arguments")]))], false) := by
    simp [processFuncItem, mkItem, jsonGetD, jsonGet, jsonTruthy, hb, hparse,
      send_function_response]
  exact ⟨key, by simp [key]⟩

/-- A handler table with one registered function, mirroring a session's
`register_function("submit_task", ...)`. -/
def demoTable : FuncTable := [("submit_task", fun _ => .ok (.obj []))]

/-- A parse stub where every argument string fails to parse. -/
def noParse : String → Option Json := fun _ => none

/-- A parse stub where every argument string parses to the empty object. -/
def okParse : String → Option Json := fun _ => some (.obj [])

/-- Witness for C2: the registered name "submit_task" with unparsable
arguments yields exactly the single "Invalid function arguments" response
for call id "call-1". -/
theorem unparsable_args_one_error_no_handler_witness :
    processFuncItem demoTable true noParse (mkItem "submit_task" (.str "call-1") "oops")
      = ([Effect.sent (Frame.functionCallResponse (.str "call-1") (.str "submit_task")
            (.obj [("error", .str "Invalid function arguments")]))], false) :=
  (unparsable_args_one_error_no_handler demoTable noParse "submit_task"
    (fun _ => .ok (.obj [])) (.str "call-1") "oops" rfl (by decide) rfl).1

/-- Dispatching a client-executable entry whose (string) name is not in the
table sends exactly the "Unknown function" error response for that entry's
call id. -/
theorem processFuncItem_unknown (funcs : FuncTable)
    (jsonLoads : String → Option Json) (nm : String) (idJ : Json)
    (argStr : String) (args : Json)
    (hunknown : lookupFn funcs nm = none)
    (hne : argStr ≠ "") (hparse : jsonLoads argStr = some args) :
    processFuncItem funcs true jsonLoads (mkItem nm idJ argStr)
      = ([unknownFrame nm idJ], false) := by
  have hb : (argStr != "") = true := by simpa [bne_iff_ne] using hne
  simp [processFuncItem, mkItem, jsonGetD, jsonGet, jsonTruthy, hb, hparse,
    dispatchCall, hunknown, send_function_response, unknownFrame]

/-- C3: a client-executable call naming an unregistered function produces
exactly one "Unknown function" error response correlated to its call id,
and two such back-to-back calls produce two independent error responses,
each correlated to its own call id. -/
theorem unknown_function_two_independent_errors (funcs : FuncTable)
    (jsonLoads : String → Option Json) (nm : String) (id1 id2 : Json)
    (argStr : String) (args : Json)
    (hunknown : lookupFn funcs nm = none)
    (hne : argStr ≠ "") (hparse : jsonLoads argStr = some args) :
    processFuncItems funcs true jsonLoads [mkItem nm id1 argStr]
      = ([unknownFrame nm id1], false)
  ∧ processFuncItems funcs true jsonLoads [mkItem nm id1 argStr, mkItem nm id2 argStr]
      = ([unknownFrame nm id1, unknownFrame nm id2], false) := by
  have h1 := processFuncItem_unknown funcs jsonLoads nm id1 argStr args hunknown hne hparse
  have h2 := processFuncItem_unknown funcs jsonLoads nm id2 argStr args hunknown hne hparse
  constructor
  · simp [processFuncItems, h1]
  · simp [processFuncItems, h1, h2]

/-- Witness for C3: two back-to-back calls to the unregistered name "bogus"
produce two error responses, correlated to call ids "c1" and "c2". -/
theorem unknown_function_two_independent_errors_witness :
    processFuncItems demoTable true okParse [mkItem "bogus" (.str "c1") "x"]
      = ([unknownFrame "bogus" (.str "c1")], false)
  ∧ processFuncItems demoTable true okParse
      [mkItem "bogus" (.str "c1") "x", mkItem "bogus" (.str "c2") "x"]
      = ([unknownFrame "bogus" (.str "c1"), unknownFrame "bogus" (.str "c2")], false) :=
  unknown_function_two_independent_errors demoTable okParse "bogus"
    (.str "c1") (.str "c2") "x" (.obj []) rfl (by decide) rfl

/-- Splitting `_message_loop` over a concatenation of delivered messages. -/
theorem message_loop_append (st : VoiceAgentState)
    (jsonLoads : String → Option Json) (xs ys : List RawMessage) :
    message_loop st jsonLoads (xs ++ ys) =
      message_loop st jsonLoads xs ++ message_loop st jsonLoads ys := by
  induction xs with
  | nil => simp [message_loop]
  | cons m rest ih => simp [message_loop, ih]

/-- C4: an inbound JSON text message whose `type` matches none of the
recognized discriminators is logged and ignored — the handler returns with
no effects and no uncaught exception — and the message loop's output over
any surrounding traffic is exactly the output for the other messages: the
unrecognized message never terminates the loop. -/
theorem unrecognized_type_loop_continues (st : VoiceAgentState)
    (jsonLoads : String → Option Json) (payload : String)
    (fields : List (String × Json)) (t : String)
    (hp : jsonLoads payload = some (.obj fields))
    (ht : jsonGetD fields "type" (.str "unknown") = .str t)
    (hun : t ∉ recognizedTypes)
    (pre post : List RawMessage) :
    handle_raw_message st jsonLoads (.text payload) = ([], false)
  ∧ message_loop st jsonLoads (pre ++ RawMessage.text payload :: post)
      = message_loop st jsonLoads pre ++ message_loop st jsonLoads post := by
  simp only [recognizedTypes, List.mem_cons, List.mem_singleton, not_or] at hun
  obtain ⟨h1, h2, h3, h4, h5, h6, h7, h8, h9, h10, h11, h12, h13, h14, h15⟩ := hun
  have hts : handleTyped st jsonLoads fields t = ([], false) := by
    simp [handleTyped, h1, h2, h3, h4, h5, h6, h7, h8, h9, h10, h11, h12, h13, h14, h15]
  have hmsg : handle_raw_message st jsonLoads (.text payload) = ([], false) := by
    simp [handle_raw_message, hp, ht, hts]
  refine ⟨hmsg, ?_⟩
  rw [message_loop_append]
  simp [message_loop, hmsg]

/-- A fully wired agent state: all five callbacks set, one registered
function, connection open. -/
def demoAgent : VoiceAgentState :=
  { on_transcript := true, on_agent_response := true, on_audio := true,
    on_user_started_speaking := true, on_agent_started_speaking := true,
    functions := demoTable, connected := true }

/-- A parse stub returning a message of the undocumented type "Bogus". -/
def bogusParse : String → Option Json := fun _ => some (.obj [("type", .str "Bogus")])

/-- Witness for C4: a "Bogus"-typed message between two audio frames is
ignored and both surrounding frames are still processed. -/
theorem unrecognized_type_loop_continues_witness :
    handle_raw_message demoAgent bogusParse (.text "x") = ([], false)
  ∧ message_loop demoAgent bogusParse [.binary [1], .text "x", .binary [2]]
      = message_loop demoAgent bogusParse [.binary [1]]
        ++ message_loop demoAgent bogusParse [.binary [2]] :=
  unrecognized_type_loop_continues demoAgent bogusParse "x"
    [("type", .str "Bogus")] "Bogus" rfl rfl (by decide) [.binary [1]] [.binary [2]]

/-- C10: a requested invocation whose `client_side` key is absent behaves
exactly like one with `client_side = false`: the entry is skipped with no
handler call and no response frame, and the remaining entries of the same
request are processed as if the entry were not there. -/
theorem absent_client_side_skipped (funcs : FuncTable) (connected : Bool)
    (jsonLoads : String → Option Json) (fields : List (String × Json))
    (rest : List Json)
    (habsent : jsonGet fields "client_side" = none) :
    processFuncItem funcs connected jsonLoads (.obj fields) = ([], false)
  ∧ processFuncItems funcs connected jsonLoads (.obj fields :: rest)
      = processFuncItems funcs connected jsonLoads rest
  ∧ ∀ fields2, jsonGet fields2 "client_side" = some (.bool false) →
      processFuncItem funcs connected jsonLoads (.obj fields2) = ([], false) := by
  have h1 : processFuncItem funcs connected jsonLoads (.obj fields) = ([], false) := by
    simp [processFuncItem, jsonGetD, habsent, jsonTruthy]
  refine ⟨h1, by simp [processFuncItems, h1], ?_⟩
  intro fields2 hf2
  simp [processFuncItem, jsonGetD, hf2, jsonTruthy]

/-- Witness for C10: an entry without `client_side` is skipped while the
following entry in the same request is still processed (and answered). -/
theorem absent_client_side_skipped_witness :
    processFuncItem demoTable true okParse
      (.obj [("name", .str "submit_task"), ("id", .str "c1"), ("arguments", .str "x")])
      = ([], false)
  ∧ processFuncItems demoTable true okParse
      [.obj [("name", .str "submit_task"), ("id", .str "c1"), ("arguments", .str "x")],
       mkItem "bogus" (.str "c2") "x"]
      = processFuncItems demoTable true okParse [mkItem "bogus" (.str "c2") "x"]
  ∧ ∀ fields2, jsonGet fields2 "client_side" = some (.bool false) →
      processFuncItem demoTable true okParse (.obj fields2) = ([], false) :=
  absent_client_side_skipped demoTable true okParse
    [("name", .str "submit_task"), ("id", .str "c1"), ("arguments", .str "x")]
    [mkItem "bogus" (.str "c2") "x"] rfl

end Voice




